import Mathlib

/-!
Shallow embedding of the Monte Carlo project-finance liquidity-risk engine
(`pf_liquidity_risk/modeling/train.py` and
`pf_liquidity_risk/modeling/config_model.py`).

Modelling conventions:
* Python floats are modelled as rationals (`ℚ`); the claims under study are
  about control flow, which draws are made and which exact formulas are
  applied, not about IEEE rounding.
* `np.random` is modelled as a stream of raw rational draws threaded through
  the computation (`RandState`).  `np.random.triangular(a, m, b)` validates
  its arguments exactly as numpy does (raising `ValueError` when `a > m`,
  `m > b` or `a = b`) and otherwise consumes one raw draw, mapped into the
  support `[a, b]`; the shape of the density is irrelevant to every claim, so
  the mode enters only the validation.  `np.random.uniform` performs no
  validation and consumes one draw mapped into `[low, high]`.
* Python exceptions are modelled with `Except`: an `AttributeError` raised by
  reading a missing attribute of the `PFConfig` dataclass, and numpy
  `ValueError`.  The random state is returned alongside so that draw
  consumption is observable (the global `np.random` state survives a raised
  exception unchanged).
* Attribute reads of the three-element rate/distribution fields performed by
  `PFInvestmentModel.simulate_path` go through `PFConfig.getTri`, which
  mirrors Python `getattr` on the frozen field set of the `PFConfig`
  dataclass: the names `pre_refi_rate` and `post_refi_rate` read by the
  source are not fields of `PFConfig`, so the lookup yields `none`
  (an `AttributeError` in Python).
-/

/-- Names under which `simulate_path` reads (min, mode, max) triples off the
configuration object.  `pre_refi_rate` and `post_refi_rate` are the names the
source reads at `train.py` lines 40-41; the remaining three are the interest
rate fields that `PFConfig` actually declares. -/
inductive RateField
  | pre_refi_rate
  | post_refi_rate
  | pre_completion_rate
  | stabilization_rate
  | post_court_rate
deriving DecidableEq, Repr

/-- The `PFConfig` dataclass of `modeling/config_model.py`, with the defaults
of the source.  The two display-metadata string fields (`config_type`,
`display_currency`) are omitted: they are never read by the engine.  The
`capitalized_ratio_map` assigned in `__post_init__` is the fixed lookup
`capitalized_ratio_map` below. -/
structure PFConfig where
  initial_equity : ℚ
  senior_loan : ℚ
  monthly_fixed_cost : ℚ
  stabilization_revenue_dist : ℚ × ℚ × ℚ
  post_court_revenue_dist : ℚ × ℚ × ℚ
  cap_rate : ℚ := 55 / 1000
  completion_target_month : ℕ := 16
  court_opening_month : ℕ := 24
  exit_month : ℕ := 36
  pre_completion_rate : ℚ × ℚ × ℚ := (10 / 100, 14 / 100, 18 / 100)
  stabilization_rate : ℚ × ℚ × ℚ := (8 / 100, 11 / 100, 14 / 100)
  post_court_rate : ℚ × ℚ × ℚ := (5 / 100, 7 / 100, 9 / 100)
  target_refi_ltv_dist : ℚ × ℚ × ℚ := (70 / 100, 80 / 100, 85 / 100)
  exit_cost_range : ℚ × ℚ := (1 / 100, 2 / 100)
deriving DecidableEq, Repr

/-- Python `getattr` on a `PFConfig` instance for triple-valued rate names:
the dataclass declares `pre_completion_rate`, `stabilization_rate` and
`post_court_rate`, so those reads succeed; `pre_refi_rate` and
`post_refi_rate` are not attributes of the object and the read fails
(`AttributeError`). -/
def PFConfig.getTri (cfg : PFConfig) : RateField → Option (ℚ × ℚ × ℚ)
  | .pre_refi_rate => none
  | .post_refi_rate => none
  | .pre_completion_rate => some cfg.pre_completion_rate
  | .stabilization_rate => some cfg.stabilization_rate
  | .post_court_rate => some cfg.post_court_rate

/-- Exceptions the engine can raise: `AttributeError` from a missing
`PFConfig` attribute, `ValueError` from numpy triangular-parameter
validation. -/
inductive SimError
  | attributeError (field : RateField)
  | valueError
deriving DecidableEq, Repr

/-- Global `np.random` state: a stream of raw rational draws and a cursor.
`np.random.seed` replaces the whole state. -/
structure RandState where
  stream : ℕ → ℚ
  idx : ℕ

/-- Advance the global random state by one draw. -/
def RandState.next (s : RandState) : RandState := ⟨s.stream, s.idx + 1⟩

/-- The raw draw the next sampling call will consume. -/
def RandState.peek (s : RandState) : ℚ := s.stream s.idx

/-- Clamp a raw draw into the unit interval; sampling maps it affinely onto
the support of the requested distribution. -/
def clamp01 (u : ℚ) : ℚ := max 0 (min 1 u)

/-- `np.random.triangular(a, m, b)`: numpy validates `a ≤ m ≤ b` and `a ≠ b`
(raising `ValueError`) before drawing; on success one draw is consumed and a
value in `[a, b]` is produced. -/
def triangular (d : ℚ × ℚ × ℚ) (s : RandState) : Except SimError ℚ × RandState :=
  if d.2.1 < d.1 then (Except.error SimError.valueError, s)
  else if d.2.2 < d.2.1 then (Except.error SimError.valueError, s)
  else if d.1 = d.2.2 then (Except.error SimError.valueError, s)
  else (Except.ok (d.1 + (d.2.2 - d.1) * clamp01 s.peek), s.next)

/-- Value produced by `np.random.uniform(low, high)` from one raw draw. -/
def uniformVal (r : ℚ × ℚ) (u : ℚ) : ℚ := r.1 + (r.2 - r.1) * clamp01 u

/-- `np.random.uniform(low, high)`: no validation, one draw consumed. -/
def uniformd (r : ℚ × ℚ) (s : RandState) : ℚ × RandState :=
  (uniformVal r s.peek, s.next)

/-- Project phase, as determined each month by `simulate_path`; the source
uses the strings "construction", "stabilization" and "exit". -/
inductive Phase
  | construction
  | stabilization
  | exitPhase
deriving DecidableEq, Repr

/-- The `capitalized_ratio_map` dict built in `PFConfig.__post_init__`:
construction 1.0, stabilization 0.4, exit 0.0. -/
def capitalized_ratio_map : Phase → ℚ
  | .construction => 1
  | .stabilization => 4 / 10
  | .exitPhase => 0

/-- Terminal status of one simulated path; the source uses the strings
"default", "refi_fail", "exit", "survived_no_exit". -/
inductive Status
  | default
  | refi_fail
  | exit
  | survived_no_exit
deriving DecidableEq, Repr

/-- Value stored in the `irr` field of an outcome dict.  The annualized
compound return `(total_return) ** (1 / years) - 1` with `years = m / 12` is
kept symbolically as `compound total_return m`, denoting
`total_return ^ (12 / m) - 1`; all other `irr` values in the source are exact
rationals (`-1.0`, `0.0`). -/
inductive IrrVal
  | val (q : ℚ)
  | compound (total_return : ℚ) (m : ℕ)
deriving DecidableEq, Repr

/-- The outcome dict returned by `simulate_path`.  Keys absent from a given
return site of the source (the `default` dict has no refinancing keys, only
the `exit` dict has `exit_multiple`) are modelled by `none`. -/
structure Outcome where
  status : Status
  month : ℕ
  final_equity : ℚ
  irr : IrrVal
  exit_multiple : Option ℚ := none
  principal_at_refi : Option ℚ := none
  refi_loan_amount : Option ℚ := none
deriving DecidableEq, Repr

/-- Per-path sampled constants fixed before the monthly loop of
`simulate_path`: the two interest-rate samples, the two phase revenue
levels, the realized completion month and its delay. -/
structure PathParams where
  preRate : ℚ
  postRate : ℚ
  stabRev : ℚ
  postRev : ℚ
  completionMonth : ℕ
  delay : ℕ
deriving DecidableEq, Repr

/-- Mutable state of the monthly loop of `simulate_path`. -/
structure LoopSt where
  equity : ℚ
  principal : ℚ
  history : List ℚ
  pAtRefi : ℚ
  refiAmt : ℚ
  currentRate : ℚ
  refinanced : Bool
deriving DecidableEq, Repr

/-- Phase determination of the loop body: construction while
`m < completion_month`, stabilization while `m < court_opening_month`, else
the exit phase; revenue is 0, the stabilization sample, or the post-opening
sample respectively. -/
def monthPhase (cfg : PFConfig) (P : PathParams) (m : ℕ) : Phase × ℚ :=
  if m < P.completionMonth then (Phase.construction, 0)
  else if m < cfg.court_opening_month then (Phase.stabilization, P.stabRev)
  else (Phase.exitPhase, P.postRev)

/-- Operating cash flow and principal sweep of the loop body: a positive net
cash flow pays down principal (any overshoot past zero is credited back to
equity), a non-positive one is absorbed by equity. -/
def cashSweep (equity principal revenue paid fixed : ℚ) : ℚ × ℚ :=
  let ncf := revenue - (fixed + paid)
  if 0 < ncf then
    let p := principal - ncf
    if p < 0 then (equity + (-p), 0) else (equity, p)
  else (equity + ncf, principal)

/-- One month of pure state update (steps 1-5 of the loop body): phase and
revenue, interest accrual split by the capitalization ratio, cash sweep, and
the one-time delay penalty on the completion month.  Returns
(revenue, updated equity, updated principal, updated history). -/
def monthUpdate (cfg : PFConfig) (P : PathParams) (m : ℕ) (st : LoopSt) :
    ℚ × ℚ × ℚ × List ℚ :=
  let pr := monthPhase cfg P m
  let revenue := pr.2
  let history1 := st.history ++ [revenue]
  let interest := st.principal * (st.currentRate / 12)
  let capR := capitalized_ratio_map pr.1
  let paid := interest * (1 - capR)
  let principal1 := st.principal + interest * capR
  let ep := cashSweep st.equity principal1 revenue paid cfg.monthly_fixed_cost
  let equity2 :=
    if m = P.completionMonth ∧ 0 < P.delay then
      ep.1 - P.delay * cfg.monthly_fixed_cost * (6 / 10)
    else ep.1
  (revenue, equity2, ep.2, history1)

/-- Last `n` elements of a list (Python `l[-n:]`). -/
def lastN (n : ℕ) (l : List ℚ) : List ℚ := l.drop (l.length - n)

/-- `np.mean` of a list of rationals. -/
def listMean (l : List ℚ) : ℚ := l.sum / l.length

/-- The refinancing viability check of the loop body, reached when
`m = completion_month + 3`: sample a loan-to-value ceiling from
`target_refi_ltv_dist`, estimate trailing NOI from the strictly positive
entries of the last three recorded revenues (falling back to the current
month revenue), capitalize it into an implied valuation and compare the
outstanding principal against `implied_val * ltv_limit`.  Returns either the
`refi_fail` outcome (`Sum.inl`) or, on success, the new active rate together
with the diagnostic values `principal_at_refi` and `refi_loan_amount`
(`Sum.inr`). -/
def refiStep (cfg : PFConfig) (P : PathParams) (revenue : ℚ) (history1 : List ℚ)
    (principal2 : ℚ) (m : ℕ) (s : RandState) :
    Except SimError (Outcome ⊕ ℚ × ℚ × ℚ) × RandState :=
  match triangular cfg.target_refi_ltv_dist s with
  | (Except.error e, s1) => (Except.error e, s1)
  | (Except.ok ltv_limit, s1) =>
    let operating_history := (lastN 3 history1).filter (fun rev => 0 < rev)
    let rolling_noi :=
      if operating_history.length = 0 then revenue else listMean operating_history
    let implied_val := rolling_noi * 12 / cfg.cap_rate
    let max_refi_loan := implied_val * ltv_limit
    if implied_val * ltv_limit < principal2 then
      (Except.ok (Sum.inl
        { status := Status.refi_fail, month := m, final_equity := 0,
          irr := IrrVal.val (-1), principal_at_refi := some principal2,
          refi_loan_amount := some max_refi_loan }), s1)
    else
      (Except.ok (Sum.inr (P.postRate, principal2, max_refi_loan)), s1)

/-- The final exit transaction of the loop body, reached when
`m = exit_month`: income-capitalization valuation of the current month
revenue, a sampled transaction cost, exit equity net of principal and cost,
compound-annualized IRR when the exit equity is positive, final equity
floored at zero, and the exit multiple. -/
def exitTransaction (cfg : PFConfig) (revenue principal pAtRefi refiAmt : ℚ)
    (m : ℕ) (s : RandState) : Except SimError Outcome × RandState :=
  let final_val := revenue * 12 / cfg.cap_rate
  let us := uniformd cfg.exit_cost_range s
  let exit_cost := final_val * us.1
  let exit_equity := final_val - principal - exit_cost
  (Except.ok
    { status := Status.exit, month := m,
      final_equity := max 0 exit_equity,
      irr := if 0 < exit_equity then
               IrrVal.compound (exit_equity / cfg.initial_equity) m
             else IrrVal.val (-1),
      exit_multiple := some (if 0 < exit_equity then exit_equity / cfg.initial_equity else 0),
      principal_at_refi := some pAtRefi,
      refi_loan_amount := some refiAmt }, us.2)

/-- The monthly loop `for m in range(1, exit_month + 1)` of `simulate_path`,
written with explicit fuel (the number of loop iterations still to run; the
loop is entered with `m = 1` and `fuel = exit_month`).  Exhausted fuel is the
loop falling through to the defensive `survived_no_exit` return. -/
def simLoop (cfg : PFConfig) (P : PathParams) :
    ℕ → ℕ → LoopSt → RandState → Except SimError Outcome × RandState
  | 0, _, st, s =>
    (Except.ok
      { status := Status.survived_no_exit, month := cfg.exit_month,
        final_equity := st.equity, irr := IrrVal.val 0,
        principal_at_refi := some st.pAtRefi,
        refi_loan_amount := some st.refiAmt }, s)
  | fuel + 1, m, st, s =>
    let u := monthUpdate cfg P m st
    let revenue := u.1
    let equity2 := u.2.1
    let principal2 := u.2.2.1
    let history1 := u.2.2.2
    if equity2 ≤ 0 then
      (Except.ok
        { status := Status.default, month := m, final_equity := 0,
          irr := IrrVal.val (-1) }, s)
    else
      match (if m = P.completionMonth + 3
             then refiStep cfg P revenue history1 principal2 m s
             else (Except.ok (Sum.inr (st.currentRate, st.pAtRefi, st.refiAmt)), s)) with
      | (Except.error e, s1) => (Except.error e, s1)
      | (Except.ok (Sum.inl out), s1) => (Except.ok out, s1)
      | (Except.ok (Sum.inr rpa), s1) =>
        if m = cfg.exit_month then
          exitTransaction cfg revenue principal2 rpa.2.1 rpa.2.2 m s1
        else
          simLoop cfg P fuel (m + 1)
            { equity := equity2, principal := principal2, history := history1,
              pAtRefi := rpa.2.1, refiAmt := rpa.2.2, currentRate := rpa.1,
              refinanced := if m = P.completionMonth + 3 then true else st.refinanced }
            s1

/-- `PFInvestmentModel.simulate_path`: the pre-loop preamble samples the two
active interest rates by reading the attributes `pre_refi_rate` and
`post_refi_rate` off the configuration (train.py lines 40-41), then the two
phase revenue levels, then the completion delay, and finally runs the
monthly loop.  Because `pre_refi_rate` is not a field of `PFConfig`, the
very first read raises `AttributeError` and nothing after it executes. -/
def simulate_path (cfg : PFConfig) (s : RandState) :
    Except SimError Outcome × RandState :=
  match cfg.getTri RateField.pre_refi_rate with
  | none => (Except.error (SimError.attributeError RateField.pre_refi_rate), s)
  | some preD =>
    match triangular preD s with
    | (Except.error e, s1) => (Except.error e, s1)
    | (Except.ok pre_refi_rate, s1) =>
      match cfg.getTri RateField.post_refi_rate with
      | none => (Except.error (SimError.attributeError RateField.post_refi_rate), s1)
      | some postD =>
        match triangular postD s1 with
        | (Except.error e, s2) => (Except.error e, s2)
        | (Except.ok post_refi_rate, s2) =>
          match triangular cfg.stabilization_revenue_dist s2 with
          | (Except.error e, s3) => (Except.error e, s3)
          | (Except.ok sampled_stab_rev, s3) =>
            match triangular cfg.post_court_revenue_dist s3 with
            | (Except.error e, s4) => (Except.error e, s4)
            | (Except.ok sampled_post_rev, s4) =>
              match triangular (0, 2, 6) s4 with
              | (Except.error e, s5) => (Except.error e, s5)
              | (Except.ok offs, s5) =>
                let completion_month :=
                  cfg.completion_target_month + (Rat.floor offs).toNat
                let delay := completion_month - cfg.completion_target_month
                simLoop cfg
                  { preRate := pre_refi_rate, postRate := post_refi_rate,
                    stabRev := sampled_stab_rev, postRev := sampled_post_rev,
                    completionMonth := completion_month, delay := delay }
                  cfg.exit_month 1
                  { equity := cfg.initial_equity, principal := cfg.senior_loan,
                    history := [], pAtRefi := 0, refiAmt := 0,
                    currentRate := pre_refi_rate, refinanced := false }
                  s5

/-- The trial list comprehension of `run_simulation`: run `n` paths
sequentially on the single shared random stream; a raised exception aborts
the whole comprehension. -/
def runTrials (cfg : PFConfig) : ℕ → RandState → Except SimError (List Outcome) × RandState
  | 0, s => (Except.ok [], s)
  | n + 1, s =>
    match simulate_path cfg s with
    | (Except.error e, s1) => (Except.error e, s1)
    | (Except.ok o, s1) =>
      match runTrials cfg n s1 with
      | (Except.ok rest, s2) => (Except.ok (o :: rest), s2)
      | (Except.error e, s2) => (Except.error e, s2)

/-- `run_simulation(iterations, seed, config)`: `np.random.seed(seed)`
replaces the global random state by a fresh stream that is a function of the
seed alone (`sg` abstracts the numpy Mersenne Twister construction, which is
not modelled bit-level), then the trial comprehension runs.  The incoming
global state `g` is discarded by the seeding, exactly as in the source. -/
def run_simulation (sg : ℤ → ℕ → ℚ) (iterations : ℕ) (seed : ℤ)
    (cfg : PFConfig) (g : RandState) : Except SimError (List Outcome) × RandState :=
  runTrials cfg iterations (RandState.mk (sg seed) 0)

/-- `configs/public_config.py` `get_config()`: the normalized public
scenario preset. -/
def public_get_config : PFConfig :=
  { initial_equity := 100, senior_loan := 3393 / 10,
    monthly_fixed_cost := 179 / 100,
    stabilization_revenue_dist := (89 / 100, 214 / 100, 268 / 100),
    post_court_revenue_dist := (214 / 100, 357 / 100, 446 / 100) }

/-! ## Concrete scenarios and random states used as witnesses -/

/-- A fixed raw stream (every draw is 1/2) with the cursor at zero. -/
def s0 : RandState := ⟨fun _ => 1 / 2, 0⟩

/-- A seed-to-stream generator standing in for the Mersenne Twister: every
seed yields the constant 1/2 stream. -/
def sg0 : ℤ → ℕ → ℚ := fun _ _ => 1 / 2

/-- The public preset with all three interest-rate distributions replaced;
used to exhibit that no rate distribution influences `simulate_path`. -/
def cfgRatesA : PFConfig :=
  { public_get_config with
      pre_completion_rate := (0, 1 / 2, 1),
      stabilization_rate := (0, 1 / 2, 1),
      post_court_rate := (0, 1 / 2, 1) }

/-- The public preset with both revenue distributions degenerate at
(0, 0, 0): the degenerate scenario of the spec. -/
def degCfg : PFConfig :=
  { public_get_config with
      stabilization_revenue_dist := (0, 0, 0),
      post_court_revenue_dist := (0, 0, 0) }

/-- A configuration violating three of the stated invariants at once: a
revenue triple with min > mode, a completion target at or past the court
opening month, and a negative initial equity. -/
def badCfg : PFConfig :=
  { public_get_config with
      stabilization_revenue_dist := (5, 1, 0),
      completion_target_month := 30,
      initial_equity := -5 }

/-- The public preset with a low monthly fixed cost. -/
def cfgLowCost : PFConfig := { public_get_config with monthly_fixed_cost := 1 }

/-- The public preset with a high monthly fixed cost. -/
def cfgHighCost : PFConfig := { public_get_config with monthly_fixed_cost := 100 }

/-- Decidable form of the configuration invariant stated by the spec: every
distribution triple ordered min ≤ mode ≤ max, the exit-cost range ordered,
the timeline strictly increasing from a positive completion target, and
positive equity and loan. -/
def specValidConfig (cfg : PFConfig) : Bool :=
  decide (cfg.stabilization_revenue_dist.1 ≤ cfg.stabilization_revenue_dist.2.1
    ∧ cfg.stabilization_revenue_dist.2.1 ≤ cfg.stabilization_revenue_dist.2.2
    ∧ cfg.post_court_revenue_dist.1 ≤ cfg.post_court_revenue_dist.2.1
    ∧ cfg.post_court_revenue_dist.2.1 ≤ cfg.post_court_revenue_dist.2.2
    ∧ cfg.pre_completion_rate.1 ≤ cfg.pre_completion_rate.2.1
    ∧ cfg.pre_completion_rate.2.1 ≤ cfg.pre_completion_rate.2.2
    ∧ cfg.stabilization_rate.1 ≤ cfg.stabilization_rate.2.1
    ∧ cfg.stabilization_rate.2.1 ≤ cfg.stabilization_rate.2.2
    ∧ cfg.post_court_rate.1 ≤ cfg.post_court_rate.2.1
    ∧ cfg.post_court_rate.2.1 ≤ cfg.post_court_rate.2.2
    ∧ cfg.target_refi_ltv_dist.1 ≤ cfg.target_refi_ltv_dist.2.1
    ∧ cfg.target_refi_ltv_dist.2.1 ≤ cfg.target_refi_ltv_dist.2.2
    ∧ cfg.exit_cost_range.1 ≤ cfg.exit_cost_range.2
    ∧ 1 ≤ cfg.completion_target_month
    ∧ cfg.completion_target_month < cfg.court_opening_month
    ∧ cfg.court_opening_month < cfg.exit_month
    ∧ 0 < cfg.initial_equity ∧ 0 < cfg.senior_loan)

/-- The exit Outcome Record exactly as the spec (§4.2 step 8) words it:
`final_valuation = (current_month_revenue × 12) / cap_rate`, a sampled
transaction cost fraction, `exit_equity = final_valuation − principal −
final_valuation × cost_fraction`, compound-annualized IRR when positive and
`-1.0` otherwise, final equity floored at 0, and
`exit_multiple = exit_equity / initial_equity` when positive, else 0.  Used
to compare the exit branch of the loop body against the specified record. -/
def specExitOutcome (cfg : PFConfig) (revenue principal pAtRefi refiAmt : ℚ)
    (m : ℕ) (costFrac : ℚ) : Outcome :=
  let final_valuation := revenue * 12 / cfg.cap_rate
  let exit_equity := final_valuation - principal - final_valuation * costFrac
  { status := Status.exit, month := m,
    final_equity := max 0 exit_equity,
    irr := if 0 < exit_equity then
             IrrVal.compound (exit_equity / cfg.initial_equity) m
           else IrrVal.val (-1),
    exit_multiple := some (if 0 < exit_equity then exit_equity / cfg.initial_equity else 0),
    principal_at_refi := some pAtRefi,
    refi_loan_amount := some refiAmt }

/-- Witness scenario for the refinancing analysis: the public preset with a
unit fixed cost, run directly through the monthly loop. -/
def cfgW : PFConfig := { public_get_config with monthly_fixed_cost := 1 }

/-- Witness path constants: zero rates and revenues, completion at month 0,
so the refinancing check falls on month 3. -/
def pW : PathParams :=
  { preRate := 0, postRate := 0, stabRev := 0, postRev := 0,
    completionMonth := 0, delay := 0 }

/-- Witness initial loop state: equity 10, principal 5. -/
def stW : LoopSt :=
  { equity := 10, principal := 5, history := [], pAtRefi := 0, refiAmt := 0,
    currentRate := 0, refinanced := false }

/-- The outcome the witness loop run produces: a refinancing failure at
month 3 (zero trailing revenue capitalizes to a zero implied valuation, so
any positive principal fails the loan-to-value test). -/
def oW : Outcome :=
  { status := Status.refi_fail, month := 3, final_equity := 0,
    irr := IrrVal.val (-1), principal_at_refi := some 5,
    refi_loan_amount := some 0 }

/-- Witness scenario for the exit transaction: one-month horizon, cap rate
1/2, unit fixed cost, zero exit costs. -/
def cfg10 : PFConfig :=
  { public_get_config with
      exit_month := 1
      cap_rate := 1 / 2
      monthly_fixed_cost := 1
      exit_cost_range := (0, 0) }

/-- Witness path constants for the exit scenario: stabilization revenue 2. -/
def p10 : PathParams :=
  { preRate := 0, postRate := 0, stabRev := 2, postRev := 0,
    completionMonth := 0, delay := 0 }

/-- Witness initial loop state for the exit scenario: equity 10,
principal 2. -/
def st10 : LoopSt :=
  { equity := 10, principal := 2, history := [], pAtRefi := 0, refiAmt := 0,
    currentRate := 0, refinanced := false }

/-- The outcome of the exit witness run: revenue 2 capitalizes to a
valuation of 48, principal is swept down to 1 by the surplus cash flow, so
exit equity is 47 with a compound IRR over one month. -/
def o10 : Outcome :=
  { status := Status.exit, month := 1, final_equity := 47,
    irr := IrrVal.compound (47 / 100) 1, exit_multiple := some (47 / 100),
    principal_at_refi := some 0, refi_loan_amount := some 0 }

/-- Witness scenario for an exit month that coincides with the refinancing
month: completion at month 0, so the refinancing check and the exit
transaction both fall on month 3. -/
def cfgX : PFConfig :=
  { public_get_config with
      exit_month := 3
      cap_rate := 1 / 2
      monthly_fixed_cost := 1
      exit_cost_range := (0, 0) }

/-- Witness path constants for the coinciding scenario: stabilization
revenue 2, completion at month 0. -/
def pX : PathParams :=
  { preRate := 0, postRate := 0, stabRev := 2, postRev := 0,
    completionMonth := 0, delay := 0 }

/-- Witness loop state entering month 3 of the coinciding scenario: equity
10, principal 2, two recorded zero-revenue months. -/
def stX : LoopSt :=
  { equity := 10, principal := 2, history := [0, 0], pAtRefi := 0,
    refiAmt := 0, currentRate := 0, refinanced := false }

/-- The successful refinancing result of the coinciding witness run: the
trailing NOI of 2 capitalizes to a valuation of 48, the sampled
loan-to-value ceiling is 31/40, so the maximal refinanceable loan 186/5 far
exceeds the swept-down principal of 1 and the check passes, carrying
(new rate, principal at refi, refi loan amount). -/
def rpaX : ℚ × ℚ × ℚ := (0, 1, 186 / 5)

/-- The random state after the loan-to-value draw of the coinciding witness
run: one draw consumed. -/
def sX1 : RandState := RandState.mk s0.stream 1

/-! ## Helper lemmas -/

/-- Reading `pre_refi_rate` off any `PFConfig` fails: the dataclass does not
declare that field. -/
theorem getTri_pre_refi (cfg : PFConfig) :
    cfg.getTri RateField.pre_refi_rate = none := rfl

/-- Every call of `simulate_path` raises the `pre_refi_rate`
`AttributeError` immediately, before consuming a single random draw. -/
theorem simulate_path_eq (cfg : PFConfig) (s : RandState) :
    simulate_path cfg s =
      (Except.error (SimError.attributeError RateField.pre_refi_rate), s) := rfl

/-- A trial comprehension over at least one trial aborts on the first trial
with the `pre_refi_rate` `AttributeError`, leaving the random state where
the seeding put it. -/
theorem runTrials_succ_eq (cfg : PFConfig) (n : ℕ) (s : RandState) :
    runTrials cfg (n + 1) s =
      (Except.error (SimError.attributeError RateField.pre_refi_rate), s) := rfl

/-- The whole batch run is insensitive to the configuration: every
configuration produces the same aborted batch (or, for zero iterations, the
same empty batch). -/
theorem runTrials_config_irrelevant (cfg1 cfg2 : PFConfig) (n : ℕ) (s : RandState) :
    runTrials cfg1 n s = runTrials cfg2 n s := by
  cases n with
  | zero => rfl
  | succ k => rw [runTrials_succ_eq, runTrials_succ_eq]

/-- When the refinancing check returns a terminal outcome, it is exactly the
`refi_fail` record of the source: month stamped with the current month,
final equity 0, IRR -1, carrying the principal at the check and the maximal
refinanceable loan. -/
theorem refiStep_inl (cfg : PFConfig) (P : PathParams) (revenue : ℚ)
    (history1 : List ℚ) (principal2 : ℚ) (m : ℕ) (s s1 : RandState)
    (out : Outcome)
    (h : refiStep cfg P revenue history1 principal2 m s = (Except.ok (Sum.inl out), s1)) :
    out.status = Status.refi_fail ∧ out.month = m ∧ out.final_equity = 0 ∧
      out.irr = IrrVal.val (-1) ∧ out.principal_at_refi = some principal2 ∧
      (out.refi_loan_amount).isSome = true := by
  unfold refiStep at h
  split at h
  · exact Except.noConfusion (congrArg Prod.fst h)
  · dsimp only at h
    split at h <;> split at h
    · cases Sum.inl.inj (Except.ok.inj (congrArg Prod.fst h))
      exact ⟨rfl, rfl, rfl, rfl, rfl, rfl⟩
    · exact Sum.noConfusion (Except.ok.inj (congrArg Prod.fst h))
    · cases Sum.inl.inj (Except.ok.inj (congrArg Prod.fst h))
      exact ⟨rfl, rfl, rfl, rfl, rfl, rfl⟩
    · exact Sum.noConfusion (Except.ok.inj (congrArg Prod.fst h))

/-- The exit transaction always returns an `exit`-status record. -/
theorem exitTransaction_status (cfg : PFConfig)
    (revenue principal pAtRefi refiAmt : ℚ) (m : ℕ) (s s1 : RandState)
    (out : Outcome)
    (h : exitTransaction cfg revenue principal pAtRefi refiAmt m s = (Except.ok out, s1)) :
    out.status = Status.exit := by
  unfold exitTransaction at h
  cases Except.ok.inj (congrArg Prod.fst h)
  rfl

/-- Any `refi_fail` outcome of the monthly loop was produced by the
refinancing branch, whose guard is `m = completion_month + 3`; so every
`refi_fail` record carries that month together with the diagnostic fields
of the source return site. -/
theorem simLoop_refi_fail_month (cfg : PFConfig) (P : PathParams) :
    ∀ fuel m st s o, (simLoop cfg P fuel m st s).1 = Except.ok o →
      o.status = Status.refi_fail →
      o.month = P.completionMonth + 3 ∧ o.final_equity = 0 ∧
        o.irr = IrrVal.val (-1) ∧ (o.principal_at_refi).isSome = true ∧
        (o.refi_loan_amount).isSome = true := by
  intro fuel
  induction fuel with
  | zero =>
    intro m st s o h hst
    simp only [simLoop] at h
    cases Except.ok.inj h
    exact absurd hst (by simp)
  | succ k ih =>
    intro m st s o h hst
    simp only [simLoop] at h
    split at h
    · cases Except.ok.inj h
      exact absurd hst (by simp)
    · by_cases hm : m = P.completionMonth + 3
      · rw [if_pos hm] at h
        split at h
        · exact Except.noConfusion h
        · rename_i out2 s1 heq
          cases Except.ok.inj h
          obtain ⟨-, h2, h3, h4, h5, h6⟩ :=
            refiStep_inl cfg P _ _ _ m s s1 o heq
          exact ⟨hm ▸ h2, h3, h4, by rw [h5]; rfl, h6⟩
        · split at h
          · rename_i rpa s1 heq hexit
            rcases he : exitTransaction cfg (monthUpdate cfg P m st).1
                (monthUpdate cfg P m st).2.2.1 rpa.2.1 rpa.2.2 m s1 with ⟨resE, s2⟩
            rw [he] at h
            cases resE with
            | error e => exact Except.noConfusion h
            | ok outE =>
              cases Except.ok.inj h
              exact absurd (exitTransaction_status cfg _ _ _ _ m s1 s2 o he)
                (by rw [hst]; simp)
          · exact ih _ _ _ _ h hst
      · rw [if_neg hm] at h
        split at h
        · exact Except.noConfusion h
        · rename_i out2 s1 heq
          exact absurd (congrArg Prod.fst heq) (by simp)
        · split at h
          · rename_i rpa s1 heq hexit
            rcases he : exitTransaction cfg (monthUpdate cfg P m st).1
                (monthUpdate cfg P m st).2.2.1 rpa.2.1 rpa.2.2 m s1 with ⟨resE, s2⟩
            rw [he] at h
            cases resE with
            | error e => exact Except.noConfusion h
            | ok outE =>
              cases Except.ok.inj h
              exact absurd (exitTransaction_status cfg _ _ _ _ m s1 s2 o he)
                (by rw [hst]; simp)
          · exact ih _ _ _ _ h hst

/-- When the loop is entered with its fuel aligned to the months remaining
(`m + fuel = exit_month + 1`, as the `for m in range(1, exit_month + 1)`
loop of the source guarantees) and at least one iteration left, the
defensive fall-through is unreachable: every outcome the loop yields is
produced inside an iteration, by the insolvency check, the refinancing
check or the exit transaction, so the `survived_no_exit` status never
appears. -/
theorem simLoop_no_survive (cfg : PFConfig) (P : PathParams) :
    ∀ fuel m st s o, 1 ≤ fuel → m + fuel = cfg.exit_month + 1 →
      (simLoop cfg P fuel m st s).1 = Except.ok o →
      o.status ≠ Status.survived_no_exit := by
  intro fuel
  induction fuel with
  | zero =>
    intro m st s o h1 h2 h3
    exact absurd h1 (by omega)
  | succ k ih =>
    intro m st s o h1 h2 h
    simp only [simLoop] at h
    split at h
    · cases Except.ok.inj h
      simp
    · by_cases hm : m = P.completionMonth + 3
      · rw [if_pos hm] at h
        split at h
        · exact Except.noConfusion h
        · rename_i out2 s1 heq
          cases Except.ok.inj h
          obtain ⟨hs, -⟩ := refiStep_inl cfg P _ _ _ m s s1 o heq
          rw [hs]
          simp
        · split at h
          · rename_i rpa s1 heq hexit
            rcases he : exitTransaction cfg (monthUpdate cfg P m st).1
                (monthUpdate cfg P m st).2.2.1 rpa.2.1 rpa.2.2 m s1 with ⟨resE, s2⟩
            rw [he] at h
            cases resE with
            | error e => exact Except.noConfusion h
            | ok outE =>
              cases Except.ok.inj h
              rw [exitTransaction_status cfg _ _ _ _ m s1 s2 o he]
              simp
          · rename_i rpa s1 heq hexit
            exact ih _ _ _ _ (by omega) (by omega) h
      · rw [if_neg hm] at h
        split at h
        · exact Except.noConfusion h
        · rename_i out2 s1 heq
          exact absurd (congrArg Prod.fst heq) (by simp)
        · split at h
          · rename_i rpa s1 heq hexit
            rcases he : exitTransaction cfg (monthUpdate cfg P m st).1
                (monthUpdate cfg P m st).2.2.1 rpa.2.1 rpa.2.2 m s1 with ⟨resE, s2⟩
            rw [he] at h
            cases resE with
            | error e => exact Except.noConfusion h
            | ok outE =>
              cases Except.ok.inj h
              rw [exitTransaction_status cfg _ _ _ _ m s1 s2 o he]
              simp
          · rename_i rpa s1 heq hexit
            exact ih _ _ _ _ (by omega) (by omega) h

/-! ## Claim theorems -/

/-- C1 (confirmed): for every configuration constructed as a `PFConfig`, a
call to `simulate_path` fails with an attribute-access error before
completing any monthly step (the returned random state is untouched, so not
even a draw happened), because it reads the fields `pre_refi_rate` and
`post_refi_rate`, which are not fields of `PFConfig`, whose interest-rate
fields are `pre_completion_rate`, `stabilization_rate` and
`post_court_rate`. -/
theorem simulate_path_attribute_error (cfg : PFConfig) (s : RandState) :
    simulate_path cfg s =
      (Except.error (SimError.attributeError RateField.pre_refi_rate), s) ∧
    cfg.getTri RateField.pre_refi_rate = none ∧
    cfg.getTri RateField.post_refi_rate = none ∧
    cfg.getTri RateField.pre_completion_rate = some cfg.pre_completion_rate ∧
    cfg.getTri RateField.stabilization_rate = some cfg.stabilization_rate ∧
    cfg.getTri RateField.post_court_rate = some cfg.post_court_rate :=
  ⟨rfl, rfl, rfl, rfl, rfl, rfl⟩

/-- C2 counterexample: replacing all three configured interest-rate
distributions changes nothing about the result of `simulate_path` (both
calls fail identically with the attribute error before any month is
simulated), refuting the claim that monthly interest is computed from rates
sampled from the configured distributions and in particular that
`stabilization_rate` is among the distributions used. -/
theorem rate_distributions_unused_cx :
    simulate_path cfgRatesA s0 = simulate_path public_get_config s0 ∧
    (simulate_path public_get_config s0).1 =
      Except.error (SimError.attributeError RateField.pre_refi_rate) :=
  ⟨rfl, rfl⟩

/-- C2 (corrected, amended claim): `simulate_path` attempts to sample its
two active rates from the attributes `pre_refi_rate` and `post_refi_rate`,
which are not `PFConfig` fields, so every call fails before any monthly
interest is computed; consequently none of the three configured rate
distributions, `stabilization_rate` included, ever influences the result:
the outcome is invariant under arbitrary replacement of all three rate
fields. -/
theorem rate_distributions_unused (cfg : PFConfig) (s : RandState)
    (r1 r2 r3 : ℚ × ℚ × ℚ) :
    simulate_path
        { cfg with pre_completion_rate := r1, stabilization_rate := r2,
                   post_court_rate := r3 } s = simulate_path cfg s ∧
    (simulate_path cfg s).1 =
      Except.error (SimError.attributeError RateField.pre_refi_rate) :=
  ⟨rfl, rfl⟩

/-- C3 counterexample: on the degenerate configuration with both revenue
distributions fixed at (0, 0, 0), a simulated path does not terminate with
status `default` (nor any status): it raises the attribute error. -/
theorem degenerate_revenue_no_default_cx :
    (simulate_path degCfg s0).1 =
      Except.error (SimError.attributeError RateField.pre_refi_rate) := rfl

/-- C3 (corrected, amended claim): for any configuration whose revenue
distributions are all fixed at (0, 0, 0), every simulated path fails with
the `pre_refi_rate` attribute error before the first month; in particular
no path terminates with status `exit` (and none with `default` either). -/
theorem degenerate_revenue_paths_error (cfg : PFConfig) (s : RandState)
    (h1 : cfg.stabilization_revenue_dist = (0, 0, 0))
    (h2 : cfg.post_court_revenue_dist = (0, 0, 0)) :
    (simulate_path cfg s).1 =
      Except.error (SimError.attributeError RateField.pre_refi_rate) ∧
    ((simulate_path cfg s).1.toOption.map Outcome.status) ≠ some Status.exit := by
  constructor
  · rw [simulate_path_eq]
  · simp [simulate_path_eq, Except.toOption]

/-- C3 witness: the amended claim applied to the concrete degenerate
configuration. -/
theorem degenerate_revenue_paths_error_witness :
    (simulate_path degCfg s0).1 =
      Except.error (SimError.attributeError RateField.pre_refi_rate) ∧
    ((simulate_path degCfg s0).1.toOption.map Outcome.status) ≠ some Status.exit :=
  degenerate_revenue_paths_error degCfg s0 (by rfl) (by rfl)

/-- C4 counterexample: a configuration violating three stated invariants at
once (revenue triple with min > mode, completion target not before the
court opening month, negative initial equity) is accepted without any
`InvalidConfiguration` condition: running a batch on it behaves exactly as
on the valid public preset, failing inside the first trial with the
attribute error, not failing fast at validation. -/
theorem invalid_config_accepted_cx :
    specValidConfig badCfg = false ∧
    run_simulation sg0 1 0 badCfg s0 = run_simulation sg0 1 0 public_get_config s0 ∧
    (run_simulation sg0 1 0 badCfg s0).1 =
      Except.error (SimError.attributeError RateField.pre_refi_rate) :=
  ⟨by decide, rfl, rfl⟩

/-- C4 (corrected, amended claim): no invariant validation exists anywhere:
`PFConfig` construction accepts invariant-violating values, and running a
batch on such a configuration does not fail with an `InvalidConfiguration`
condition before any trial; instead the first trial is attempted and
aborts the batch with the `pre_refi_rate` attribute error (so, trivially,
no partial sequence of outcome records is produced). -/
theorem invalid_config_not_rejected (sg : ℤ → ℕ → ℚ) (it : ℕ) (sd : ℤ)
    (cfg : PFConfig) (g : RandState)
    (hinv : specValidConfig cfg = false) (hit : 1 ≤ it) :
    (run_simulation sg it sd cfg g).1 =
      Except.error (SimError.attributeError RateField.pre_refi_rate) := by
  obtain ⟨n, rfl⟩ : ∃ n, it = n + 1 := ⟨it - 1, by omega⟩
  unfold run_simulation
  rw [runTrials_succ_eq]

/-- C4 witness: the amended claim applied to the concrete invalid
configuration. -/
theorem invalid_config_not_rejected_witness :
    (run_simulation sg0 1 0 badCfg s0).1 =
      Except.error (SimError.attributeError RateField.pre_refi_rate) :=
  invalid_config_not_rejected sg0 1 0 badCfg s0 (by decide) (by decide)

/-- C5 counterexample: a batch run of one trial does not yield a sequence
of outcome records at all (so a fortiori not two bit-identical sequences
over two calls): it aborts with the attribute error; the two calls, with
different incoming global random states, do agree exactly. -/
theorem run_no_record_sequence_cx :
    run_simulation sg0 1 5 public_get_config s0 =
      run_simulation sg0 1 5 public_get_config (RandState.mk (fun _ => 0) 7) ∧
    (run_simulation sg0 1 5 public_get_config s0).1 =
      Except.error (SimError.attributeError RateField.pre_refi_rate) :=
  ⟨rfl, rfl⟩

/-- C5 (corrected, amended claim): the batch run is a deterministic
function of (generator, trial count, seed, configuration): the seeding
discards the incoming global random state, so two calls with identical
arguments produce identical results, and the whole run factors through the
freshly seeded stream; only, for a positive trial count that common result
is the attribute error rather than a record sequence. -/
theorem run_simulation_deterministic (sg : ℤ → ℕ → ℚ) (it : ℕ) (sd : ℤ)
    (cfg : PFConfig) (g g1 : RandState) :
    run_simulation sg it sd cfg g = run_simulation sg it sd cfg g1 ∧
    run_simulation sg it sd cfg g = runTrials cfg it (RandState.mk (sg sd) 0) :=
  ⟨rfl, rfl⟩

/-- C6 counterexample: a batch run requested with trial count 2 produces
zero outcome records, not 2: the first trial raises and aborts the
comprehension. -/
theorem run_two_trials_no_records_cx :
    (run_simulation sg0 2 3 public_get_config s0).1 =
      Except.error (SimError.attributeError RateField.pre_refi_rate) := rfl

/-- C6 (corrected, amended claim): for any positive trial count the batch
run produces no outcome records: the single shared sequential stream
(seeded once, threaded through the trial comprehension; there is no
per-trial seeding or stream splitting in the source) reaches the first
trial, which raises the attribute error with the stream exactly where the
seeding left it. -/
theorem run_aborts_first_trial (sg : ℤ → ℕ → ℚ) (it : ℕ) (sd : ℤ)
    (cfg : PFConfig) (g : RandState) (hit : 1 ≤ it) :
    run_simulation sg it sd cfg g =
      (Except.error (SimError.attributeError RateField.pre_refi_rate),
        RandState.mk (sg sd) 0) := by
  obtain ⟨n, rfl⟩ : ∃ n, it = n + 1 := ⟨it - 1, by omega⟩
  unfold run_simulation
  rw [runTrials_succ_eq]

/-- C6 witness: the amended claim at trial count 1. -/
theorem run_aborts_first_trial_witness :
    run_simulation sg0 1 4 public_get_config s0 =
      (Except.error (SimError.attributeError RateField.pre_refi_rate),
        RandState.mk (sg0 4) 0) :=
  run_aborts_first_trial sg0 1 4 public_get_config s0 (by decide)

/-- C7 counterexample: on the public preset the refinancing check runs
zero times, not exactly once: `simulate_path` fails before the loop and
consumes no draw at all (the random state comes back with its cursor still
at 0, so no loan-to-value ceiling was ever sampled). -/
theorem refi_check_never_runs_cx :
    simulate_path public_get_config s0 =
      (Except.error (SimError.attributeError RateField.pre_refi_rate), s0) ∧
    (simulate_path public_get_config s0).2.idx = 0 :=
  ⟨rfl, rfl⟩

/-- C7 (corrected, amended claim): no path ever performs the refinancing
check, since `simulate_path` fails before entering the monthly loop; in
the loop body as written, the check is guarded by
`m = completion_month + 3`, so every `refi_fail` outcome the loop can
produce carries month `completion_month + 3`, final equity 0, IRR -1.0,
and the diagnostic fields `principal_at_refi` and `refi_loan_amount`. -/
theorem refi_fail_only_at_completion_plus_three (cfg : PFConfig) (P : PathParams)
    (fuel m : ℕ) (st : LoopSt) (s : RandState) (o : Outcome)
    (h : (simLoop cfg P fuel m st s).1 = Except.ok o)
    (hst : o.status = Status.refi_fail) :
    o.month = P.completionMonth + 3 ∧ o.final_equity = 0 ∧
      o.irr = IrrVal.val (-1) ∧ (o.principal_at_refi).isSome = true ∧
      (o.refi_loan_amount).isSome = true :=
  simLoop_refi_fail_month cfg P fuel m st s o h hst

/-- C7 witness: a concrete loop run that fails refinancing at month 3
(completion month 0 plus the fixed 3-month window). -/
theorem refi_fail_only_at_completion_plus_three_witness :
    oW.month = pW.completionMonth + 3 ∧ oW.final_equity = 0 ∧
      oW.irr = IrrVal.val (-1) ∧ (oW.principal_at_refi).isSome = true ∧
      (oW.refi_loan_amount).isSome = true :=
  refi_fail_only_at_completion_plus_three cfgW pW 4 1 stW s0 oW
    (by norm_num [simLoop, monthUpdate, monthPhase, cashSweep, refiStep, triangular,
          clamp01, lastN, listMean, RandState.peek, RandState.next, uniformd, uniformVal,
          capitalized_ratio_map, cfgW, pW, stW, s0, public_get_config, oW, exitTransaction])
    (by rfl)

/-- C8 (confirmed): a path state that reaches the month `m = exit_month`
without a prior terminal condition returns exactly the specified exit
record: status `exit`, final valuation
`(current month revenue × 12) / cap_rate`, exit equity equal to the
valuation minus principal minus valuation times the cost fraction sampled
from `exit_cost_range`, IRR `(exit_equity / initial_equity) ^ (12 / m) - 1`
when the exit equity is positive and -1.0 otherwise, final equity floored
at 0, and exit multiple `exit_equity / initial_equity` when positive, else
0 (statement via `specExitOutcome`, transcribed from the specification
wording).  Both ways of reaching the exit valuation are covered: when the
refinancing check belongs to a different month, the cost fraction comes
from the next draw of the incoming stream and the record carries the stored
refinancing diagnostics; when the refinancing month coincides with the exit
month and the check succeeds (a successful refinancing is not a terminal
condition: the source falls through to the exit transaction in the same
iteration), the cost fraction comes from the stream position after the
loan-to-value draw and the record carries the diagnostics the check just
computed. -/
theorem exit_month_transaction_record (cfg : PFConfig) (P : PathParams)
    (fuel m : ℕ) (st : LoopSt) (s : RandState)
    (hm : m = cfg.exit_month)
    (hsolv : 0 < (monthUpdate cfg P m st).2.1) :
    (m ≠ P.completionMonth + 3 →
      (simLoop cfg P (fuel + 1) m st s).1 =
        Except.ok (specExitOutcome cfg (monthUpdate cfg P m st).1
          (monthUpdate cfg P m st).2.2.1 st.pAtRefi st.refiAmt m
          (uniformVal cfg.exit_cost_range s.peek))) ∧
    (∀ rpa : ℚ × ℚ × ℚ, ∀ s1 : RandState, m = P.completionMonth + 3 →
      refiStep cfg P (monthUpdate cfg P m st).1 (monthUpdate cfg P m st).2.2.2
          (monthUpdate cfg P m st).2.2.1 m s = (Except.ok (Sum.inr rpa), s1) →
      (simLoop cfg P (fuel + 1) m st s).1 =
        Except.ok (specExitOutcome cfg (monthUpdate cfg P m st).1
          (monthUpdate cfg P m st).2.2.1 rpa.2.1 rpa.2.2 m
          (uniformVal cfg.exit_cost_range s1.peek))) := by
  subst hm
  constructor
  · intro hrefi
    simp only [simLoop]
    rw [if_neg (not_le.mpr hsolv), if_neg hrefi]
    split
    · rename_i e s1 heq
      exact absurd (congrArg Prod.fst heq) (by simp)
    · rename_i out2 s1 heq
      exact Sum.noConfusion (Except.ok.inj (congrArg Prod.fst heq))
    · rename_i rpa s1 heq
      cases Sum.inr.inj (Except.ok.inj (congrArg Prod.fst heq))
      cases congrArg Prod.snd heq
      rw [if_pos trivial]
      rfl
  · intro rpa s1 hrm hrs
    simp only [simLoop]
    rw [if_neg (not_le.mpr hsolv), if_pos hrm, hrs]
    split
    · rename_i e s1x heq
      exact absurd (congrArg Prod.fst heq) (by simp)
    · rename_i out2 s1x heq
      exact Sum.noConfusion (Except.ok.inj (congrArg Prod.fst heq))
    · rename_i rpax s1x heq
      cases Sum.inr.inj (Except.ok.inj (congrArg Prod.fst heq))
      cases congrArg Prod.snd heq
      rw [if_pos trivial]
      rfl

/-- C8 witness: both parts of the exit-month theorem evaluated concretely:
a one-month scenario whose refinancing month differs from the exit month,
and a three-month scenario whose refinancing check falls on the exit month
and succeeds (trailing NOI 2 capitalizes to 48, the ceiling draw allows a
loan of 186/5 against a principal of 1). -/
theorem exit_month_transaction_record_witness :
    ((simLoop cfg10 p10 (0 + 1) 1 st10 s0).1 =
      Except.ok (specExitOutcome cfg10 (monthUpdate cfg10 p10 1 st10).1
        (monthUpdate cfg10 p10 1 st10).2.2.1 st10.pAtRefi st10.refiAmt 1
        (uniformVal cfg10.exit_cost_range s0.peek))) ∧
    ((simLoop cfgX pX (0 + 1) 3 stX s0).1 =
      Except.ok (specExitOutcome cfgX (monthUpdate cfgX pX 3 stX).1
        (monthUpdate cfgX pX 3 stX).2.2.1 rpaX.2.1 rpaX.2.2 3
        (uniformVal cfgX.exit_cost_range sX1.peek))) :=
  ⟨(exit_month_transaction_record cfg10 p10 0 1 st10 s0 (by rfl)
      (by norm_num [monthUpdate, monthPhase, cashSweep, cfg10, p10, st10,
            public_get_config, capitalized_ratio_map])).1 (by decide),
   (exit_month_transaction_record cfgX pX 0 3 stX s0 (by rfl)
      (by norm_num [monthUpdate, monthPhase, cashSweep, cfgX, pX, stX,
            public_get_config, capitalized_ratio_map])).2 rpaX sX1 (by decide)
     (by norm_num [refiStep, triangular, monthUpdate, monthPhase, cashSweep,
           lastN, listMean, clamp01, RandState.peek, RandState.next, cfgX, pX,
           stX, s0, sX1, rpaX, public_get_config, capitalized_ratio_map])⟩

/-- C9 counterexample: two batch runs differing only in
`monthly_fixed_cost` (1 versus 100) are bit-identical and neither produces
any outcome records, so the run with the larger cost does not have a
default proportion at all, let alone one at least as large. -/
theorem default_proportion_monotonicity_cx :
    run_simulation sg0 3 1 cfgLowCost s0 = run_simulation sg0 3 1 cfgHighCost s0 ∧
    (run_simulation sg0 3 1 cfgLowCost s0).1 =
      Except.error (SimError.attributeError RateField.pre_refi_rate) :=
  ⟨rfl, rfl⟩

/-- C9 (corrected, amended claim): the batch run is entirely invariant
under `monthly_fixed_cost` (every run aborts before the fixed cost is ever
read, and a zero-trial run is empty either way), so no comparison of
default proportions between the two runs is ever realized. -/
theorem run_fixed_cost_invariant (sg : ℤ → ℕ → ℚ) (it : ℕ) (sd : ℤ)
    (cfg : PFConfig) (c1 c2 : ℚ) (g : RandState) :
    run_simulation sg it sd { cfg with monthly_fixed_cost := c1 } g =
      run_simulation sg it sd { cfg with monthly_fixed_cost := c2 } g := by
  unfold run_simulation
  exact runTrials_config_irrelevant _ _ it _

/-- C10 (confirmed): for every configuration with `exit_month ≥ 1` the
defensive post-loop branch is unreachable: `simulate_path` never returns a
record with status `survived_no_exit` (it fails before the loop), and the
monthly loop itself, entered as the source enters it (month 1 with
`exit_month` iterations), terminates every completed path inside the loop
through the insolvency check, the refinancing check or the exit valuation
at the final month, never through the fall-through branch. -/
theorem no_survived_no_exit_status :
    (∀ cfg : PFConfig, ∀ s : RandState, 1 ≤ cfg.exit_month →
      ((simulate_path cfg s).1.toOption.map Outcome.status) ≠
        some Status.survived_no_exit) ∧
    (∀ cfg : PFConfig, ∀ P : PathParams, ∀ st : LoopSt, ∀ s : RandState, ∀ o : Outcome,
      1 ≤ cfg.exit_month →
      (simLoop cfg P cfg.exit_month 1 st s).1 = Except.ok o →
      o.status ≠ Status.survived_no_exit) := by
  constructor
  · intro cfg s h
    simp [simulate_path_eq, Except.toOption]
  · intro cfg P st s o h hok
    exact simLoop_no_survive cfg P cfg.exit_month 1 st s o h (by omega) hok

/-- C10 witness: the two parts applied at concrete inputs, including a
concrete completed loop run (which exits, rather than surviving without
exit). -/
theorem no_survived_no_exit_status_witness :
    ((simulate_path public_get_config s0).1.toOption.map Outcome.status) ≠
      some Status.survived_no_exit ∧
    o10.status ≠ Status.survived_no_exit :=
  ⟨no_survived_no_exit_status.1 public_get_config s0 (by decide),
   no_survived_no_exit_status.2 cfg10 p10 st10 s0 o10 (by decide)
     (by norm_num [simLoop, monthUpdate, monthPhase, cashSweep, refiStep, triangular,
           clamp01, lastN, listMean, RandState.peek, RandState.next, uniformd, uniformVal,
           capitalized_ratio_map, cfg10, p10, st10, s0, public_get_config, o10,
           exitTransaction])⟩
